import Mathlib

/-!
Verification of the SlackStampSender reaction relay (src/app.py).

The Python source is shallowly embedded: every function becomes a pure Lean
function.  The three remote collaborators (the Slack conversations.replies
API, the Notion database query, and the Notion page update) are passed in as
oracle functions bundled in a `World`, and the endpoint handler additionally
returns the list of remote calls it issued, so that frame properties
("no remote calls occur") can be stated.  A raised Python exception is an
`Except.error`; an HTTP JSON response is a value of `HttpResponse`.
-/

set_option linter.unusedVariables false

/-- Line-break characters recognised by Python's `str.splitlines`
(`\n`, `\r`, `\v`, `\f`, the separators `\x1c`-`\x1e`, NEL, and the
Unicode line/paragraph separators).  `\r\n` is handled as one break in
`pySplitlinesAux`. -/
def isLineBreak (c : Char) : Bool :=
  c == '\n' || c == '\r' || c == '\x0b' || c == '\x0c' ||
  c == '\x1c' || c == '\x1d' || c == '\x1e' || c == '\x85' ||
  c == ' ' || c == ' '

/-- Accumulator version of Python's `str.splitlines`: `acc` holds the
current (reversed) line.  A trailing line break produces no extra empty
line, exactly as in Python (`"a\n".splitlines() == ["a"]`,
`"".splitlines() == []`). -/
def pySplitlinesAux : List Char → List Char → List String
  | [], acc => if acc = [] then [] else [String.mk acc.reverse]
  | '\r' :: '\n' :: rest, acc => String.mk acc.reverse :: pySplitlinesAux rest []
  | c :: rest, acc =>
    if isLineBreak c then String.mk acc.reverse :: pySplitlinesAux rest []
    else pySplitlinesAux rest (c :: acc)

/-- Python's `text.splitlines()` on the character list of `text`. -/
def pySplitlines (s : List Char) : List String :=
  pySplitlinesAux s []

/-- Whitespace characters stripped by Python's no-argument `str.strip`
(the characters for which `str.isspace` holds). -/
def isPySpace (c : Char) : Bool :=
  c == ' ' || c == '\t' || c == '\n' || c == '\r' || c == '\x0b' || c == '\x0c' ||
  c == '\x1c' || c == '\x1d' || c == '\x1e' || c == '\x1f' || c == '\x85' ||
  c == '\xa0' || c == ' ' ||
  (0x2000 ≤ c.toNat && c.toNat ≤ 0x200a) ||
  c == ' ' || c == ' ' || c == ' ' || c == ' ' || c == '　'

/-- Python's `s.strip()`: drop whitespace from both ends. -/
def pyStrip (s : List Char) : List Char :=
  ((s.dropWhile isPySpace).reverse.dropWhile isPySpace).reverse

/-- Python's `s.strip(c)` for a one-character set: drop every leading and
trailing occurrence of `c`. -/
def pyStripChar (c : Char) (s : List Char) : List Char :=
  ((s.dropWhile (· == c)).reverse.dropWhile (· == c)).reverse

/-- The transient article value produced by the parser
(`article = {"title": ..., "url": ..., "summary": ...}` in the source). -/
structure Article where
  title : String
  url : String
  summary : String
deriving DecidableEq, Repr

/-- `parse_article_from_message` from src/app.py, line for line:
split into lines; fewer than 2 lines is a parse failure (`None`);
`title = lines[0].strip().strip("*")`; `url_line = lines[1].strip()`;
`url = url_line[1:-1]` when `url_line` starts with `<` and ends with `>`,
else `url_line`; `summary = "\n".join(lines[2:])` when there are more than
2 lines, else the empty string. -/
def parse_article_from_message (text : String) : Option Article :=
  let lines := pySplitlines text.data
  if lines.length < 2 then none
  else
    let title := String.mk (pyStripChar '*' (pyStrip (lines.getD 0 "").data))
    let url_line := pyStrip (lines.getD 1 "").data
    let url :=
      if url_line.head? = some '<' ∧ url_line.getLast? = some '>' then
        String.mk ((url_line.drop 1).dropLast)
      else String.mk url_line
    let summary :=
      if lines.length > 2 then String.intercalate "\n" (lines.drop 2) else ""
    some { title := title, url := url, summary := summary }

/-- One message object of a `conversations.replies` response; both the
`ts` and the `text` JSON fields may be absent (`msg.get(...)` in the
source), hence `Option`. -/
structure SlackMsg where
  ts : Option String
  text : Option String
deriving DecidableEq, Repr

/-- The JSON body returned by the Slack `conversations.replies` call:
an `ok` flag (absent is modelled as `false`, matching the truthiness test
`not data.get("ok")`) and an optional `messages` list
(`"messages" not in data` is `messages = none`). -/
structure RepliesResponse where
  ok : Bool
  messages : Option (List SlackMsg)
deriving DecidableEq, Repr

/-- `fetch_slack_message` from src/app.py.  The remote round trip is the
oracle `api`, applied to the `channel` and `ts` request parameters (the
only two the source sends).  If the response is not ok or has no
`messages` key, the result is `None`; otherwise the scan returns
`msg.get("text")` of the first message whose `ts` equals the requested
one, or `None` when no message matches.  `thread_ts` is received but
never used for the lookup (it is only logged in the source). -/
def fetch_slack_message (api : String → Option String → RepliesResponse)
    (channel : String) (ts : Option String) (thread_ts : Option String) :
    Option String :=
  let data := api channel ts
  if data.ok = false ∨ data.messages = none then none
  else
    match (data.messages.getD []).find? (fun msg => msg.ts == ts) with
    | some msg => msg.text
    | none => none

/-- `find_notion_page_by_url` from src/app.py: the database query is the
oracle `db`, returning the list of result page ids for a URL equality
filter; the function returns `results[0]["id"]` when the list is
non-empty, else `None`. -/
def find_notion_page_by_url (db : String → List String) (article_url : String) :
    Option String :=
  (db article_url).head?

/-- `update_notion_score` from src/app.py: the remote update is the
oracle `upd`; an exception from the client is `Except.error`.  The
source catches the exception, logs it and re-raises it unchanged, so the
outcome is the oracle's outcome. -/
def update_notion_score (upd : String → Int → Except String String)
    (page_id : String) (score : Int) : Except String String :=
  upd page_id score

/-- `event["item"]` of a reaction event: channel, message timestamp and
optional thread timestamp, each possibly absent. -/
structure Item where
  channel : Option String
  ts : Option String
  thread_ts : Option String
deriving DecidableEq, Repr

/-- `event` of an inbound request body. -/
structure Event where
  type : Option String
  reaction : Option String
  item : Option Item
deriving DecidableEq, Repr

/-- A parsed inbound request body: an optional `challenge` key and an
optional `event` object. -/
structure Body where
  challenge : Option String
  event : Option Event
deriving DecidableEq, Repr

/-- `event.get("item", {})` default: an item with every field absent. -/
def emptyItem : Item := { channel := none, ts := none, thread_ts := none }

/-- `data.get("event", {})` default: an event with every field absent. -/
def emptyEvent : Event := { type := none, reaction := none, item := none }

/-- The reaction names the endpoint accepts
(`("+1", "thumbsup","o","thumbsdown","-1","x")` on line 134). -/
def acceptedReactions : List String :=
  ["+1", "thumbsup", "o", "thumbsdown", "-1", "x"]

/-- The reaction names scored 1 (`("+1", "thumbsup","o")` on line 138). -/
def positiveReactions : List String := ["+1", "thumbsup", "o"]

/-- The reaction names that fall to the `else` branch of the score
assignment; the source's comment on that branch names them:
`#reaction in ("-1", "thumbsdown","x")`. -/
def negativeReactions : List String := ["-1", "thumbsdown", "x"]

/-- Lines 138-141 of src/app.py: `score=1` when the reaction is in the
positive tuple, else `score=0`.  The argument is the possibly-absent
`event.get("reaction")`. -/
def reactionScore (reaction : Option String) : Int :=
  if reaction ∈ positiveReactions.map some then 1 else 0

/-- One remote call issued by the handler, for frame properties. -/
inductive RemoteCall where
  | slackReplies (channel : String) (ts : Option String)
  | notionQuery (url : String)
  | notionUpdate (pageId : String) (score : Int)
deriving DecidableEq, Repr

/-- A JSON HTTP response produced by the endpoint. -/
inductive HttpResponse where
  | challengeResp (value : String)
  | messageResp (message : String) (status : Nat)
  | updatedResp (message : String) (response : String) (status : Nat)
deriving DecidableEq, Repr

/-- The HTTP status of a response; `JSONResponse` without an explicit
`status_code` defaults to 200. -/
def HttpResponse.status : HttpResponse → Nat
  | challengeResp _ => 200
  | messageResp _ s => s
  | updatedResp _ _ s => s

/-- The three remote collaborators of the handler, as oracles:
the Slack replies API keyed by the request parameters (channel, ts),
the Notion database query keyed by the URL filter (returning result page
ids), and the Notion page update (which may raise). -/
structure World where
  slackApi : String → Option String → RepliesResponse
  notionDb : String → List String
  notionUpdate : String → Int → Except String String

/-- Lines 143-164 of `slack_events` in src/app.py: the tail of the
handler after the channel and reaction gates have passed (at that point
the event's channel equals the configured channel, which is passed here
as `slack_channel`).  Returns the handler outcome (`Except.error` when
the Notion update raises, since the handler has no try/except) together
with the list of remote calls issued.  `if not message_text` is the
Python truthiness test: `None` or the empty string. -/
def reaction_pipeline (w : World) (slack_channel : String) (item : Item)
    (score : Int) : Except String HttpResponse × List RemoteCall :=
  let ts := item.ts
  let thread_ts := item.thread_ts
  let message_text := fetch_slack_message w.slackApi slack_channel ts thread_ts
  if message_text = none ∨ message_text = some "" then
    (Except.ok (HttpResponse.messageResp "Message fetch failed" 200),
     [RemoteCall.slackReplies slack_channel ts])
  else
    match parse_article_from_message (message_text.getD "") with
    | none =>
      (Except.ok (HttpResponse.messageResp "Article parse failed" 200),
       [RemoteCall.slackReplies slack_channel ts])
    | some article =>
      let notion_page_id := find_notion_page_by_url w.notionDb article.url
      if notion_page_id = none ∨ notion_page_id = some "" then
        (Except.ok (HttpResponse.messageResp "Notion page not found" 200),
         [RemoteCall.slackReplies slack_channel ts,
          RemoteCall.notionQuery article.url])
      else
        match update_notion_score w.notionUpdate (notion_page_id.getD "") score with
        | Except.ok resp =>
          (Except.ok (HttpResponse.updatedResp "Notion updated" resp 200),
           [RemoteCall.slackReplies slack_channel ts,
            RemoteCall.notionQuery article.url,
            RemoteCall.notionUpdate (notion_page_id.getD "") score])
        | Except.error e =>
          (Except.error e,
           [RemoteCall.slackReplies slack_channel ts,
            RemoteCall.notionQuery article.url,
            RemoteCall.notionUpdate (notion_page_id.getD "") score])

/-- `slack_events` from src/app.py (lines 117-167), the `POST
/slack/events` handler.  `slack_channel` is the configured monitored
channel (`SLACK_CHANNEL`).  A body with a `challenge` key is answered
immediately; a non-`reaction_added` event type, a foreign channel and an
unrecognised reaction are each acknowledged with a 200 response and no
remote call; otherwise the score is computed and the fetch/parse/locate/
update pipeline runs.  `if not notion_page_id` is again Python
truthiness: `None` or the empty string. -/
def slack_events (w : World) (slack_channel : String) (data : Body) :
    Except String HttpResponse × List RemoteCall :=
  match data.challenge with
  | some c => (Except.ok (HttpResponse.challengeResp c), [])
  | none =>
    let event := data.event.getD emptyEvent
    if event.type = some "reaction_added" then
      let channel := (event.item.getD emptyItem).channel
      if channel ≠ some slack_channel then
        (Except.ok (HttpResponse.messageResp "Channel not monitored" 200), [])
      else
        let reaction := event.reaction
        if reaction ∉ acceptedReactions.map some then
          (Except.ok (HttpResponse.messageResp "Reaction not processed" 200), [])
        else
          reaction_pipeline w slack_channel (event.item.getD emptyItem)
            (reactionScore reaction)
    else
      (Except.ok (HttpResponse.messageResp "Event type not handled" 200), [])

/-- The url rule of the spec's parser contract, adjusted for the
whitespace stripping the source performs: line 1 is stripped of
surrounding whitespace; when the stripped line both starts with `<` and
ends with `>`, those two brackets are removed, else the stripped line is
used as is. -/
def urlOfLine (l : String) : String :=
  let u := pyStrip l.data
  if u.head? = some '<' ∧ u.getLast? = some '>' then
    String.mk ((u.drop 1).dropLast)
  else String.mk u

/-- A reaction_added body on channel "C", reaction "+1", message ts "1". -/
def reactionBody : Body :=
  { challenge := none,
    event := some
      { type := some "reaction_added", reaction := some "+1",
        item := some { channel := some "C", ts := some "1", thread_ts := none } } }

/-- A reaction_added body on channel "C" carrying the unrecognised
reaction "eyes". -/
def eyesBody : Body :=
  { challenge := none,
    event := some
      { type := some "reaction_added", reaction := some "eyes",
        item := some { channel := some "C", ts := some "1", thread_ts := none } } }

/-- A body carrying both a challenge token and a full reaction event. -/
def challengeBody : Body :=
  { challenge := some "tok",
    event := some
      { type := some "reaction_added", reaction := some "+1",
        item := some { channel := some "C", ts := some "1", thread_ts := none } } }

/-- A world whose Slack API always finds message "*T*\n<u>\nS" at ts "1",
whose Notion query always finds page "p1", and whose Notion update always
raises "boom". -/
def failingWorld : World :=
  { slackApi := fun _ _ =>
      { ok := true, messages := some [{ ts := some "1", text := some "*T*\n<u>\nS" }] },
    notionDb := fun _ => ["p1"],
    notionUpdate := fun _ _ => Except.error "boom" }

/-- Like `failingWorld`, but the Notion update succeeds with "done". -/
def okWorld : World :=
  { slackApi := fun _ _ =>
      { ok := true, messages := some [{ ts := some "1", text := some "*T*\n<u>\nS" }] },
    notionDb := fun _ => ["p1"],
    notionUpdate := fun _ _ => Except.ok "done" }

/-- A world whose Slack API finds a message at ts "1" whose text field is
the empty string. -/
def emptyTextWorld : World :=
  { slackApi := fun _ _ =>
      { ok := true, messages := some [{ ts := some "1", text := some "" }] },
    notionDb := fun _ => ["p1"],
    notionUpdate := fun _ _ => Except.ok "done" }

/- Helper lemmas: one per return point of the handler. -/

lemma slack_events_challenge (w : World) (cfg : String) (d : Body) (c : String)
    (h : d.challenge = some c) :
    slack_events w cfg d = (Except.ok (HttpResponse.challengeResp c), []) := by
  unfold slack_events
  rw [h]

lemma slack_events_unhandled (w : World) (cfg : String) (d : Body)
    (h0 : d.challenge = none)
    (h1 : (d.event.getD emptyEvent).type ≠ some "reaction_added") :
    slack_events w cfg d =
      (Except.ok (HttpResponse.messageResp "Event type not handled" 200), []) := by
  unfold slack_events
  rw [h0]
  simp only [if_neg h1]

lemma slack_events_not_monitored (w : World) (cfg : String) (d : Body)
    (h0 : d.challenge = none)
    (h1 : (d.event.getD emptyEvent).type = some "reaction_added")
    (h2 : ((d.event.getD emptyEvent).item.getD emptyItem).channel ≠ some cfg) :
    slack_events w cfg d =
      (Except.ok (HttpResponse.messageResp "Channel not monitored" 200), []) := by
  unfold slack_events
  rw [h0]
  simp only [if_pos h1, if_pos h2]

lemma slack_events_not_processed (w : World) (cfg : String) (d : Body)
    (h0 : d.challenge = none)
    (h1 : (d.event.getD emptyEvent).type = some "reaction_added")
    (h2 : ((d.event.getD emptyEvent).item.getD emptyItem).channel = some cfg)
    (h3 : (d.event.getD emptyEvent).reaction ∉ acceptedReactions.map some) :
    slack_events w cfg d =
      (Except.ok (HttpResponse.messageResp "Reaction not processed" 200), []) := by
  unfold slack_events
  rw [h0]
  simp only [if_pos h1, h2, ne_eq, not_true_eq_false, if_false, if_pos h3]

lemma slack_events_pipeline (w : World) (cfg : String) (d : Body)
    (h0 : d.challenge = none)
    (h1 : (d.event.getD emptyEvent).type = some "reaction_added")
    (h2 : ((d.event.getD emptyEvent).item.getD emptyItem).channel = some cfg)
    (h3 : (d.event.getD emptyEvent).reaction ∈ acceptedReactions.map some) :
    slack_events w cfg d =
      reaction_pipeline w cfg ((d.event.getD emptyEvent).item.getD emptyItem)
        (reactionScore (d.event.getD emptyEvent).reaction) := by
  unfold slack_events
  rw [h0]
  simp only [if_pos h1, h2, ne_eq, not_true_eq_false, if_false, h3,
    not_true_eq_false]

lemma fetch_slack_message_found (api : String → Option String → RepliesResponse)
    (ch : String) (ts tts : Option String) (msgs : List SlackMsg) (m : SlackMsg)
    (hok : (api ch ts).ok = true)
    (hmsgs : (api ch ts).messages = some msgs)
    (hfind : msgs.find? (fun x => x.ts == ts) = some m) :
    fetch_slack_message api ch ts tts = m.text := by
  simp [fetch_slack_message, hok, hmsgs, hfind]

lemma rp_fetch_failed (w : World) (cfg : String) (i : Item) (score : Int)
    (h : fetch_slack_message w.slackApi cfg i.ts i.thread_ts = none ∨
         fetch_slack_message w.slackApi cfg i.ts i.thread_ts = some "") :
    reaction_pipeline w cfg i score =
      (Except.ok (HttpResponse.messageResp "Message fetch failed" 200),
       [RemoteCall.slackReplies cfg i.ts]) := by
  simp only [reaction_pipeline]
  rw [if_pos h]

lemma rp_parse_failed (w : World) (cfg : String) (i : Item) (score : Int)
    (txt : String)
    (hm : fetch_slack_message w.slackApi cfg i.ts i.thread_ts = some txt)
    (hne : txt ≠ "")
    (hp : parse_article_from_message txt = none) :
    reaction_pipeline w cfg i score =
      (Except.ok (HttpResponse.messageResp "Article parse failed" 200),
       [RemoteCall.slackReplies cfg i.ts]) := by
  simp [reaction_pipeline, hm, hne, hp]

lemma rp_not_found (w : World) (cfg : String) (i : Item) (score : Int)
    (txt : String) (article : Article)
    (hm : fetch_slack_message w.slackApi cfg i.ts i.thread_ts = some txt)
    (hne : txt ≠ "")
    (hp : parse_article_from_message txt = some article)
    (hq : find_notion_page_by_url w.notionDb article.url = none ∨
          find_notion_page_by_url w.notionDb article.url = some "") :
    reaction_pipeline w cfg i score =
      (Except.ok (HttpResponse.messageResp "Notion page not found" 200),
       [RemoteCall.slackReplies cfg i.ts, RemoteCall.notionQuery article.url]) := by
  simp only [reaction_pipeline, hm]
  rw [if_neg (by simp [hne])]
  simp only [Option.getD_some, hp]
  rw [if_pos hq]

lemma rp_updated (w : World) (cfg : String) (i : Item) (score : Int)
    (txt : String) (article : Article) (pid resp : String)
    (hm : fetch_slack_message w.slackApi cfg i.ts i.thread_ts = some txt)
    (hne : txt ≠ "")
    (hp : parse_article_from_message txt = some article)
    (hq : find_notion_page_by_url w.notionDb article.url = some pid)
    (hpne : pid ≠ "")
    (hu : w.notionUpdate pid score = Except.ok resp) :
    reaction_pipeline w cfg i score =
      (Except.ok (HttpResponse.updatedResp "Notion updated" resp 200),
       [RemoteCall.slackReplies cfg i.ts, RemoteCall.notionQuery article.url,
        RemoteCall.notionUpdate pid score]) := by
  simp only [reaction_pipeline, hm]
  rw [if_neg (by simp [hne])]
  simp only [Option.getD_some, hp, hq]
  rw [if_neg (by simp [hpne])]
  simp [update_notion_score, hu]

lemma rp_update_error (w : World) (cfg : String) (i : Item) (score : Int)
    (txt : String) (article : Article) (pid e : String)
    (hm : fetch_slack_message w.slackApi cfg i.ts i.thread_ts = some txt)
    (hne : txt ≠ "")
    (hp : parse_article_from_message txt = some article)
    (hq : find_notion_page_by_url w.notionDb article.url = some pid)
    (hpne : pid ≠ "")
    (hu : w.notionUpdate pid score = Except.error e) :
    reaction_pipeline w cfg i score =
      (Except.error e,
       [RemoteCall.slackReplies cfg i.ts, RemoteCall.notionQuery article.url,
        RemoteCall.notionUpdate pid score]) := by
  simp only [reaction_pipeline, hm]
  rw [if_neg (by simp [hne])]
  simp only [Option.getD_some, hp, hq]
  rw [if_neg (by simp [hpne])]
  simp [update_notion_score, hu]

/-- Every possible outcome of the pipeline tail: a message response after
only the Slack call, a message response after the Slack call and the
Notion query, or — when the Notion update is reached — the update's own
outcome, with all three calls logged. -/
lemma rp_shape (w : World) (cfg : String) (i : Item) (score : Int) :
    (∃ m, reaction_pipeline w cfg i score =
      (Except.ok (HttpResponse.messageResp m 200),
       [RemoteCall.slackReplies cfg i.ts])) ∨
    (∃ m u, reaction_pipeline w cfg i score =
      (Except.ok (HttpResponse.messageResp m 200),
       [RemoteCall.slackReplies cfg i.ts, RemoteCall.notionQuery u])) ∨
    (∃ u pid resp, w.notionUpdate pid score = Except.ok resp ∧
      reaction_pipeline w cfg i score =
        (Except.ok (HttpResponse.updatedResp "Notion updated" resp 200),
         [RemoteCall.slackReplies cfg i.ts, RemoteCall.notionQuery u,
          RemoteCall.notionUpdate pid score])) ∨
    (∃ u pid e, w.notionUpdate pid score = Except.error e ∧
      reaction_pipeline w cfg i score =
        (Except.error e,
         [RemoteCall.slackReplies cfg i.ts, RemoteCall.notionQuery u,
          RemoteCall.notionUpdate pid score])) := by
  by_cases hf : fetch_slack_message w.slackApi cfg i.ts i.thread_ts = none ∨
      fetch_slack_message w.slackApi cfg i.ts i.thread_ts = some ""
  · exact Or.inl ⟨_, rp_fetch_failed w cfg i score hf⟩
  · push_neg at hf
    obtain ⟨hf1, hf2⟩ := hf
    obtain ⟨txt, htxt⟩ := Option.ne_none_iff_exists'.mp hf1
    have hne : txt ≠ "" := fun h => hf2 (h ▸ htxt)
    cases hp : parse_article_from_message txt with
    | none => exact Or.inl ⟨_, rp_parse_failed w cfg i score txt htxt hne hp⟩
    | some article =>
      by_cases hq : find_notion_page_by_url w.notionDb article.url = none ∨
          find_notion_page_by_url w.notionDb article.url = some ""
      · exact Or.inr (Or.inl
          ⟨_, article.url, rp_not_found w cfg i score txt article htxt hne hp hq⟩)
      · push_neg at hq
        obtain ⟨pid, hpid⟩ := Option.ne_none_iff_exists'.mp hq.1
        have hpne : pid ≠ "" := fun h => hq.2 (h ▸ hpid)
        cases hu : w.notionUpdate pid score with
        | ok resp =>
          exact Or.inr (Or.inr (Or.inl ⟨article.url, pid, resp, hu,
            rp_updated w cfg i score txt article pid resp htxt hne hp hpid hpne hu⟩))
        | error e =>
          exact Or.inr (Or.inr (Or.inr ⟨article.url, pid, e, hu,
            rp_update_error w cfg i score txt article pid e htxt hne hp hpid hpne hu⟩))

/-- Every outcome of the handler: either an immediate 200 response with
no remote call, or the outcome of the pipeline tail for some item and
score. -/
lemma slack_events_shape (w : World) (cfg : String) (d : Body) :
    ((slack_events w cfg d).2 = [] ∧
      ∃ r, (slack_events w cfg d).1 = Except.ok r ∧ r.status = 200) ∨
    (∃ i score, slack_events w cfg d = reaction_pipeline w cfg i score) := by
  cases hch : d.challenge with
  | some c =>
    rw [slack_events_challenge w cfg d c hch]
    exact Or.inl ⟨rfl, _, rfl, rfl⟩
  | none =>
    by_cases h1 : (d.event.getD emptyEvent).type = some "reaction_added"
    · by_cases h2 : ((d.event.getD emptyEvent).item.getD emptyItem).channel = some cfg
      · by_cases h3 : (d.event.getD emptyEvent).reaction ∈ acceptedReactions.map some
        · exact Or.inr ⟨_, _, slack_events_pipeline w cfg d hch h1 h2 h3⟩
        · rw [slack_events_not_processed w cfg d hch h1 h2 h3]
          exact Or.inl ⟨rfl, _, rfl, rfl⟩
      · rw [slack_events_not_monitored w cfg d hch h1 h2]
        exact Or.inl ⟨rfl, _, rfl, rfl⟩
    · rw [slack_events_unhandled w cfg d hch h1]
      exact Or.inl ⟨rfl, _, rfl, rfl⟩

/-- C1: every reaction in the positive set maps to score 1, every
reaction in the negative set maps to score 0, and the accepted set is
exactly the union of the positive and negative sets, so the mapping is
exhaustive over the accepted set and no accepted reaction falls through
to a default. -/
theorem c1_reaction_score_mapping :
    (∀ r ∈ positiveReactions, reactionScore (some r) = 1) ∧
    (∀ r ∈ negativeReactions, reactionScore (some r) = 0) ∧
    (∀ r : String,
      r ∈ acceptedReactions ↔ r ∈ positiveReactions ∨ r ∈ negativeReactions) := by
  refine ⟨by decide, by decide, fun r => ?_⟩
  simp only [acceptedReactions, positiveReactions, negativeReactions,
    List.mem_cons, List.not_mem_nil, or_false]
  tauto

theorem c1_reaction_score_mapping_witness :
    reactionScore (some "+1") = 1 ∧ reactionScore (some "x") = 0 :=
  ⟨c1_reaction_score_mapping.1 "+1" (by decide),
   c1_reaction_score_mapping.2.1 "x" (by decide)⟩

/-- C4: whenever the request body contains a `challenge` key, the
endpoint replies at once with a JSON object echoing exactly that value,
whatever else the body contains, and performs no event processing (no
remote call is issued). -/
theorem c4_challenge_echo :
    ∀ (w : World) (cfg : String) (d : Body) (c : String),
      d.challenge = some c →
      slack_events w cfg d = (Except.ok (HttpResponse.challengeResp c), []) :=
  slack_events_challenge

theorem c4_challenge_echo_witness :
    slack_events okWorld "C" challengeBody =
      (Except.ok (HttpResponse.challengeResp "tok"), []) :=
  c4_challenge_echo okWorld "C" challengeBody "tok" rfl

/-- C5: a reaction_added event on a channel other than the configured
one, and likewise any request whose event carries a reaction name
outside the accepted set, is answered with an HTTP 200 response while no
remote call at all (Slack fetch, Notion query or Notion update) is
issued. -/
theorem c5_filtered_requests_issue_no_calls :
    ∀ (w : World) (cfg : String) (d : Body),
      ((d.event.getD emptyEvent).type = some "reaction_added" →
        ((d.event.getD emptyEvent).item.getD emptyItem).channel ≠ some cfg →
        (slack_events w cfg d).2 = [] ∧
          ∃ r, (slack_events w cfg d).1 = Except.ok r ∧ r.status = 200) ∧
      ((d.event.getD emptyEvent).reaction ∉ acceptedReactions.map some →
        (slack_events w cfg d).2 = [] ∧
          ∃ r, (slack_events w cfg d).1 = Except.ok r ∧ r.status = 200) := by
  intro w cfg d
  constructor
  · intro h1 h2
    cases hch : d.challenge with
    | some c =>
      rw [slack_events_challenge w cfg d c hch]
      exact ⟨rfl, _, rfl, rfl⟩
    | none =>
      rw [slack_events_not_monitored w cfg d hch h1 h2]
      exact ⟨rfl, _, rfl, rfl⟩
  · intro h3
    cases hch : d.challenge with
    | some c =>
      rw [slack_events_challenge w cfg d c hch]
      exact ⟨rfl, _, rfl, rfl⟩
    | none =>
      by_cases h1 : (d.event.getD emptyEvent).type = some "reaction_added"
      · by_cases h2 :
            ((d.event.getD emptyEvent).item.getD emptyItem).channel = some cfg
        · rw [slack_events_not_processed w cfg d hch h1 h2 h3]
          exact ⟨rfl, _, rfl, rfl⟩
        · rw [slack_events_not_monitored w cfg d hch h1 h2]
          exact ⟨rfl, _, rfl, rfl⟩
      · rw [slack_events_unhandled w cfg d hch h1]
        exact ⟨rfl, _, rfl, rfl⟩

theorem c5_filtered_requests_issue_no_calls_witness :
    ((slack_events okWorld "D" reactionBody).2 = [] ∧
      ∃ r, (slack_events okWorld "D" reactionBody).1 = Except.ok r ∧
        r.status = 200) ∧
    ((slack_events okWorld "C" eyesBody).2 = [] ∧
      ∃ r, (slack_events okWorld "C" eyesBody).1 = Except.ok r ∧
        r.status = 200) :=
  ⟨(c5_filtered_requests_issue_no_calls okWorld "D" reactionBody).1
      (by decide) (by decide),
   (c5_filtered_requests_issue_no_calls okWorld "C" eyesBody).2 (by decide)⟩

/-- C6: on any text with fewer than 2 lines (the empty string included)
the parser returns `none`; being a total Lean function it throws
nothing. -/
theorem c6_parse_needs_two_lines :
    ∀ text : String, (pySplitlines text.data).length < 2 →
      parse_article_from_message text = none := by
  intro text h
  simp only [parse_article_from_message]
  rw [if_pos h]

theorem c6_parse_needs_two_lines_witness :
    parse_article_from_message "" = none :=
  c6_parse_needs_two_lines "" (by decide)

/-- C9: the message resolver's result does not depend on the optional
thread timestamp: two calls differing only in it give the same result
against the same remote responses, because the lookup request is keyed
on channel and message timestamp alone. -/
theorem c9_thread_ts_never_affects_fetch :
    ∀ (api : String → Option String → RepliesResponse) (ch : String)
      (ts t1 t2 : Option String),
      fetch_slack_message api ch ts t1 = fetch_slack_message api ch ts t2 :=
  fun _ _ _ _ _ => rfl

/-- C2 counterexample: the claim as stated is false, because the source
strips surrounding whitespace before the `*` markers on line 0 and
before the bracket test on line 1.  On the text " t\n u " (line 0
" t", line 1 " u ", no brackets) the claimed title is " t" and the
claimed url the verbatim " u ", but the parser yields title "t" and
url "u". -/
theorem c2_counterexample :
    ¬ (∀ (text l0 l1 : String) (rest : List String),
        pySplitlines text.data = l0 :: l1 :: rest →
        (parse_article_from_message text).map Article.title =
          some (String.mk (pyStripChar '*' l0.data)) ∧
        (l1.data.head? ≠ some '<' →
          (parse_article_from_message text).map Article.url = some l1)) := by
  intro h
  have h2 := h " t\n u " " t" " u " [] (by decide)
  exact absurd h2.1 (by decide)

/-- C2 (amended): for every text with at least 2 lines the parser
succeeds, the title is line 0 stripped of surrounding whitespace and
then of surrounding `*` characters, the url is line 1 stripped of
surrounding whitespace and then of the angle brackets when the stripped
line both starts with `<` and ends with `>` (else the stripped line
itself), and the summary is the lines from index 2 onward rejoined with
newlines (the empty string when there are none); the round-trip example
of the spec holds as stated. -/
theorem c2_parse_contract :
    (∀ (text l0 l1 : String) (rest : List String),
      pySplitlines text.data = l0 :: l1 :: rest →
      parse_article_from_message text =
        some { title := String.mk (pyStripChar '*' (pyStrip l0.data)),
               url := urlOfLine l1,
               summary := String.intercalate "\n" rest }) ∧
    parse_article_from_message "*My Title*\n<https://example.com/a>\nLine1\nLine2" =
      some { title := "My Title", url := "https://example.com/a",
             summary := "Line1\nLine2" } := by
  constructor
  · intro text l0 l1 rest h
    simp only [parse_article_from_message, h, urlOfLine]
    rw [if_neg (by simp)]
    simp only [List.getD_cons_zero, List.getD_cons_succ, List.length_cons,
      List.drop_succ_cons, List.drop_zero]
    cases rest with
    | nil => simp [String.intercalate]
    | cons a as => simp
  · decide

theorem c2_parse_contract_witness :
    parse_article_from_message "*A*\n<u>\nS" =
      some { title := "A", url := "u", summary := "S" } := by
  have h := c2_parse_contract.1 "*A*\n<u>\nS" "*A*" "<u>" ["S"] (by decide)
  rw [h]
  decide

/-- C8 counterexample: the produced url can be empty (text "t\n<>"
parses to an article whose url is ""), and the url is not the second
line verbatim apart from bracket stripping, because surrounding
whitespace is removed first (text "t\n u " parses to url "u", not
" u "). -/
theorem c8_counterexample :
    (¬ (∀ (text : String) (a : Article),
        parse_article_from_message text = some a → a.url ≠ "")) ∧
    (¬ (∀ (text : String) (a : Article),
        parse_article_from_message text = some a →
        ((pySplitlines text.data).getD 1 "").data.head? ≠ some '<' →
        a.url = (pySplitlines text.data).getD 1 "")) := by
  constructor
  · intro h
    exact h "t\n<>" { title := "t", url := "", summary := "" } (by decide) rfl
  · intro h
    have h2 := h "t\n u " { title := "t", url := "u", summary := "" }
      (by decide) (by decide)
    exact absurd h2 (by decide)

/-- C8 (amended): every article the parser produces has as url the
second line of the source text stripped of surrounding whitespace and
then of one leading `<` and one trailing `>` when both are present
(else the whitespace-stripped line verbatim); the url may be empty. -/
theorem c8_url_from_second_line :
    ∀ (text : String) (a : Article),
      parse_article_from_message text = some a →
      a.url = urlOfLine ((pySplitlines text.data).getD 1 "") := by
  intro text a h
  simp only [parse_article_from_message] at h
  by_cases hl : (pySplitlines text.data).length < 2
  · rw [if_pos hl] at h
    cases h
  · rw [if_neg hl] at h
    injection h with h2
    subst h2
    simp [urlOfLine]

theorem c8_url_from_second_line_witness :
    ({ title := "A", url := "u", summary := "S" } : Article).url =
      urlOfLine ((pySplitlines ("*A*\n<u>\nS").data).getD 1 "") :=
  c8_url_from_second_line "*A*\n<u>\nS"
    { title := "A", url := "u", summary := "S" } (by decide)

/-- C3: a handler run ends in an error exactly when it reached the
Notion update and that update raised; the raised error is re-raised
unchanged out of the handler (the source has no try/except around the
call in `slack_events`), while every run that produces a response —
wrong channel, unrecognised reaction, fetch failure, parse failure,
record not found, and success alike — carries HTTP status 200.
(The logging the source performs before re-raising is I/O and is not
modelled.) -/
theorem c3_write_fault_propagates :
    ∀ (w : World) (cfg : String) (d : Body),
      (∀ e, (slack_events w cfg d).1 = Except.error e →
        ∃ pid score,
          RemoteCall.notionUpdate pid score ∈ (slack_events w cfg d).2 ∧
          w.notionUpdate pid score = Except.error e) ∧
      (∀ pid score e,
        RemoteCall.notionUpdate pid score ∈ (slack_events w cfg d).2 →
        w.notionUpdate pid score = Except.error e →
        (slack_events w cfg d).1 = Except.error e) ∧
      (∀ r, (slack_events w cfg d).1 = Except.ok r → r.status = 200) := by
  intro w cfg d
  rcases slack_events_shape w cfg d with ⟨hlog, r, hr, hs⟩ | ⟨i, score, hpipe⟩
  · refine ⟨fun e he => absurd he (by rw [hr]; simp),
      fun pid sc e hmem _ => absurd hmem (by rw [hlog]; simp),
      fun r' hr' => ?_⟩
    rw [hr] at hr'
    injection hr' with h2
    exact h2 ▸ hs
  · rw [hpipe]
    rcases rp_shape w cfg i score with ⟨m, hrp⟩ | ⟨m, u, hrp⟩ |
      ⟨u, pid0, resp, hu, hrp⟩ | ⟨u, pid0, e0, hu, hrp⟩
    · refine ⟨fun e he => ?_, fun pid sc e hmem _ => ?_, fun r' hr' => ?_⟩
      · rw [hrp] at he
        simp at he
      · rw [hrp] at hmem
        simp at hmem
      · rw [hrp] at hr'
        simp only at hr'
        injection hr' with h2
        subst h2
        rfl
    · refine ⟨fun e he => ?_, fun pid sc e hmem _ => ?_, fun r' hr' => ?_⟩
      · rw [hrp] at he
        simp at he
      · rw [hrp] at hmem
        simp at hmem
      · rw [hrp] at hr'
        simp only at hr'
        injection hr' with h2
        subst h2
        rfl
    · refine ⟨fun e he => ?_, fun pid sc e hmem hupd => ?_, fun r' hr' => ?_⟩
      · rw [hrp] at he
        simp at he
      · rw [hrp] at hmem
        simp at hmem
        obtain ⟨rfl, rfl⟩ := hmem
        rw [hupd] at hu
        cases hu
      · rw [hrp] at hr'
        simp only at hr'
        injection hr' with h2
        subst h2
        rfl
    · refine ⟨fun e he => ?_, fun pid sc e hmem hupd => ?_, fun r' hr' => ?_⟩
      · rw [hrp] at he
        simp only at he
        injection he with h2
        subst h2
        exact ⟨pid0, score, by rw [hrp]; simp, hu⟩
      · rw [hrp] at hmem
        simp at hmem
        obtain ⟨rfl, rfl⟩ := hmem
        rw [hupd] at hu
        injection hu with h2
        rw [hrp, h2]
      · rw [hrp] at hr'
        simp at hr'

theorem c3_write_fault_propagates_witness :
    (slack_events failingWorld "C" reactionBody).1 = Except.error "boom" :=
  (c3_write_fault_propagates failingWorld "C" reactionBody).2.1 "p1" 1 "boom"
    (by decide) rfl

/-- C7 counterexample: the claim's "only if" fails.  With a response
that is ok, has a message list, and whose single message matches the
requested timestamp but has no `text` field, the resolver returns
`None` (it returns `msg.get("text")`), although none of the claim's
three failure conditions holds. -/
theorem c7_counterexample :
    ¬ (∀ (api : String → Option String → RepliesResponse) (ch : String)
        (ts tts : Option String),
        fetch_slack_message api ch ts tts = none →
        (api ch ts).ok = false ∨ (api ch ts).messages = none ∨
        (∀ m ∈ (api ch ts).messages.getD [], ¬ m.ts = ts)) := by
  intro h
  have h2 := h (fun _ _ =>
      { ok := true, messages := some [{ ts := some "1", text := none }] })
    "C" (some "1") none (by decide)
  exact absurd h2 (by decide)

/-- C7 (amended): the resolver returns `None` if and only if the
response is not ok, or has no message list, or no listed message's
timestamp equals the requested one, or the first matching message has no
text field; otherwise it returns the text of the first matching
message.  As a total Lean function it throws nothing. -/
theorem c7_fetch_none_characterisation :
    ∀ (api : String → Option String → RepliesResponse) (ch : String)
      (ts tts : Option String),
      (fetch_slack_message api ch ts tts = none ↔
        (api ch ts).ok = false ∨ (api ch ts).messages = none ∨
        (∀ m ∈ (api ch ts).messages.getD [], ¬ m.ts = ts) ∨
        (∃ m, ((api ch ts).messages.getD []).find? (fun x => x.ts == ts) = some m ∧
          m.text = none)) ∧
      (∀ (m : SlackMsg) (txt : String),
        ((api ch ts).messages.getD []).find? (fun x => x.ts == ts) = some m →
        m.text = some txt → (api ch ts).ok = true →
        fetch_slack_message api ch ts tts = some txt) := by
  intro api ch ts tts
  constructor
  · cases hok : (api ch ts).ok with
    | false =>
      have hnone : fetch_slack_message api ch ts tts = none := by
        simp [fetch_slack_message, hok]
      rw [hnone]
      simp [hok]
    | true =>
      cases hmsgs : (api ch ts).messages with
      | none =>
        have hnone : fetch_slack_message api ch ts tts = none := by
          simp [fetch_slack_message, hmsgs]
        rw [hnone]
        simp [hmsgs]
      | some msgs =>
        cases hfind : msgs.find? (fun x => x.ts == ts) with
        | none =>
          have hnone : fetch_slack_message api ch ts tts = none := by
            simp [fetch_slack_message, hok, hmsgs, hfind]
          have hall : ∀ m ∈ msgs, ¬ m.ts = ts := by
            intro m hm hEq
            have hp := List.find?_eq_none.mp hfind m hm
            simp [hEq] at hp
          exact iff_of_true hnone (Or.inr (Or.inr (Or.inl (by simpa using hall))))
        | some m =>
          have hfetch := fetch_slack_message_found api ch ts tts msgs m hok
            hmsgs hfind
          rw [hfetch]
          constructor
          · intro h
            exact Or.inr (Or.inr (Or.inr ⟨m, by simp [hmsgs, hfind], h⟩))
          · rintro (h | h | h | ⟨m2, hm2, ht2⟩)
            · simp at h
            · simp at h
            · have hmem := List.mem_of_find?_eq_some hfind
              have hpm := List.find?_some hfind
              simp only [Option.getD_some] at h
              exact absurd (by simpa using hpm) (h m hmem)
            · simp only [Option.getD_some] at hm2
              rw [hfind] at hm2
              injection hm2 with hm2
              exact hm2 ▸ ht2
  · intro m txt hfind2 htxt hok
    cases hmsgs : (api ch ts).messages with
    | none =>
      rw [hmsgs] at hfind2
      simp at hfind2
    | some msgs =>
      rw [hmsgs] at hfind2
      simp only [Option.getD_some] at hfind2
      rw [fetch_slack_message_found api ch ts tts msgs m hok hmsgs hfind2, htxt]

theorem c7_fetch_none_characterisation_witness :
    fetch_slack_message (fun _ _ =>
        { ok := true, messages := some [{ ts := some "1", text := some "hello" }] })
      "C" (some "1") none = some "hello" :=
  (c7_fetch_none_characterisation (fun _ _ =>
        { ok := true, messages := some [{ ts := some "1", text := some "hello" }] })
      "C" (some "1") none).2 { ts := some "1", text := some "hello" } "hello"
    (by decide) rfl rfl

/-- C10: when the pipeline is reached and the first message matching the
requested timestamp has an empty-string or absent text field, the
handler takes the same path as a fetch failure: it answers 200 with the
"Message fetch failed" status, only the Slack call was issued, and the
parser, the Notion query and the Notion update are never invoked (the
handler returns before them, and the call log shows no Notion call). -/
theorem c10_empty_text_is_fetch_failure :
    ∀ (w : World) (cfg : String) (d : Body) (e : Event) (i : Item)
      (msgs : List SlackMsg) (m : SlackMsg),
      d.challenge = none →
      d.event = some e →
      e.type = some "reaction_added" →
      e.item = some i →
      i.channel = some cfg →
      e.reaction ∈ acceptedReactions.map some →
      (w.slackApi cfg i.ts).ok = true →
      (w.slackApi cfg i.ts).messages = some msgs →
      msgs.find? (fun x => x.ts == i.ts) = some m →
      (m.text = none ∨ m.text = some "") →
      slack_events w cfg d =
        (Except.ok (HttpResponse.messageResp "Message fetch failed" 200),
         [RemoteCall.slackReplies cfg i.ts]) := by
  intro w cfg d e i msgs m h0 hE h1 hI h2 h3 hok hmsgs hfind htext
  have hget : d.event.getD emptyEvent = e := by rw [hE]; rfl
  have hgetI : e.item.getD emptyItem = i := by rw [hI]; rfl
  have hpipe := slack_events_pipeline w cfg d h0 (by rw [hget]; exact h1)
    (by rw [hget, hgetI]; exact h2) (by rw [hget]; exact h3)
  rw [hget, hgetI] at hpipe
  have hfetch : fetch_slack_message w.slackApi cfg i.ts i.thread_ts = m.text :=
    fetch_slack_message_found w.slackApi cfg i.ts i.thread_ts msgs m hok
      hmsgs hfind
  have hfb : fetch_slack_message w.slackApi cfg i.ts i.thread_ts = none ∨
      fetch_slack_message w.slackApi cfg i.ts i.thread_ts = some "" := by
    rcases htext with h | h
    · exact Or.inl (by rw [hfetch, h])
    · exact Or.inr (by rw [hfetch, h])
  rw [hpipe, rp_fetch_failed w cfg i _ hfb]

theorem c10_empty_text_is_fetch_failure_witness :
    slack_events emptyTextWorld "C" reactionBody =
      (Except.ok (HttpResponse.messageResp "Message fetch failed" 200),
       [RemoteCall.slackReplies "C" (some "1")]) :=
  c10_empty_text_is_fetch_failure emptyTextWorld "C" reactionBody
    { type := some "reaction_added", reaction := some "+1",
      item := some { channel := some "C", ts := some "1", thread_ts := none } }
    { channel := some "C", ts := some "1", thread_ts := none }
    [{ ts := some "1", text := some "" }] { ts := some "1", text := some "" }
    rfl rfl rfl rfl rfl (by decide) rfl rfl (by decide) (Or.inr rfl)
